import Mathlib

/-!
Shallow embedding of the point-in-shape collision engine of
`satisfactory-planner` (`collision_detection/vector2.py` and
`collision_detection/hitboxes.py`).

Coordinates are modelled as real numbers.  Python exceptions
(`ZeroDivisionError` raised by float division by zero inside
`Vector2.angle`) are modelled with `Option`: `none` means the call raises.
All other arithmetic in the source is exact over the reals.
-/

noncomputable section

namespace SatisfactoryPlanner

/-- A query point, `tuple[float, float]` in the source. -/
abbrev Point := ℝ × ℝ

/-- Embedding of `math.radians(d)`: degrees to radians. -/
def radians (d : ℝ) : ℝ := d * Real.pi / 180

/-! ## Vector2 (`collision_detection/vector2.py`) -/

/-- Embedding of `Vector2`: basic 2D vector with `x` and `y` coordinates. -/
structure Vector2 where
  x : ℝ
  y : ℝ

namespace Vector2

/-- Embedding of `Vector2.magnitude`: `sqrt(x*x + y*y)`. -/
def magnitude (v : Vector2) : ℝ := Real.sqrt (v.x * v.x + v.y * v.y)

/-- Embedding of `Vector2.dot` restricted to the two-argument case used by the engine:
`a.x*b.x + a.y*b.y` (the n-ary generalisation in the source multiplies
elementwise over all arguments; with two arguments it is this sum). -/
def dot (a b : Vector2) : ℝ := a.x * b.x + a.y * b.y

/-- Embedding of `Vector2.cross_product`: determinant `a.x*b.y - a.y*b.x`. -/
def cross_product (a b : Vector2) : ℝ := a.x * b.y - a.y * b.x

/-- Embedding of `Vector2.rotate(angle)` as called by the engine: pivot `(0, 0)`,
counter-clockwise (`clockwise=False`), standard rotation matrix.  The
Python method mutates `self` and also returns the rotated vector; the
returned value (equal to the final state of `self`) is modelled here. -/
def rotate (v : Vector2) (angle : ℝ) : Vector2 :=
  ⟨v.x * Real.cos angle - v.y * Real.sin angle,
   v.x * Real.sin angle + v.y * Real.cos angle⟩

/-- Embedding of `Vector2.angle(vector)`: unsigned angle through `acos`, sign-corrected
by the sign of `asin` of the cross product, normalised into `[0, 2π)`.
Both `acos` and `asin` arguments are divided by
`self.magnitude() * vector.magnitude()`; in Python a zero magnitude
product raises `ZeroDivisionError`, modelled by `none`. -/
def angle (self vector : Vector2) : Option ℝ :=
  if self.magnitude * vector.magnitude = 0 then none
  else
    let m := self.magnitude * vector.magnitude
    let a := Real.arccos (dot self vector / m)
    let b : ℝ := if Real.arcsin (cross_product self vector / m) > 0 then 1 else -1
    some (if a * b < 0 then a * b + 2 * Real.pi else a * b)

end Vector2

/-! ## Primitive collider shapes (`collision_detection/hitboxes.py`) -/

/-- Embedding of `CircleCollider`: stores center `(x, y)` and radius `r` verbatim. -/
structure CircleCollider where
  x : ℝ
  y : ℝ
  r : ℝ

/-- Embedding of `CircleCollider.contains`: strict bounding-box pre-check, then the
inclusive squared-distance test. -/
def CircleCollider.contains (c : CircleCollider) (position : Point) : Bool :=
  let x := position.1
  let y := position.2
  if ¬(c.x - c.r < x ∧ x < c.x + c.r ∧ c.y - c.r < y ∧ y < c.y + c.r) then
    false
  else if (x - c.x) ^ 2 + (y - c.y) ^ 2 ≤ c.r ^ 2 then true else false

/-- Embedding of `AABBCollider`: stores origin `(x, y)`, `width` and `height` verbatim. -/
structure AABBCollider where
  x : ℝ
  y : ℝ
  width : ℝ
  height : ℝ

/-- Embedding of `AABBCollider.contains`: inclusive bounds on both ends, no pre-check. -/
def AABBCollider.contains (c : AABBCollider) (position : Point) : Bool :=
  let x := position.1
  let y := position.2
  if c.x ≤ x ∧ x ≤ c.x + c.width ∧ c.y ≤ y ∧ y ≤ c.y + c.height then true
  else false

/-- Embedding of `RectangleCollider`: stores the construction parameters plus the
bounding box over the four corners computed in `__init__`. -/
structure RectangleCollider where
  x : ℝ
  y : ℝ
  width : ℝ
  height : ℝ
  angle : ℝ
  min_x : ℝ
  max_x : ℝ
  min_y : ℝ
  max_y : ℝ

/-- Embedding of `RectangleCollider.__init__`: computes the rotated corners
`(x0,y0)`, `(x1,y1)`, `(x3,y3)` and the min/max bounding box over them
and `(x, y)`. -/
def RectangleCollider.init (x y width height angle : ℝ) : RectangleCollider :=
  let cs := Real.cos (radians angle)
  let sn := Real.sin (radians angle)
  let x0 := x - height * sn
  let y0 := y - height * cs
  let x1 := x0 + width * cs
  let y1 := y0 - width * sn
  let x3 := x1 + height * sn
  let y3 := y0 + height * cs
  { x := x, y := y, width := width, height := height, angle := angle
    min_x := min (min (min x0 x1) x) x3
    max_x := max (max (max x0 x1) x) x3
    min_y := min (min (min y0 y1) y) y3
    max_y := max (max (max y0 y1) y) y3 }

/-- Embedding of `RectangleCollider.contains`: strict bounding-box pre-check, then
projection of `s = (p.x - q.x, q.y - p.y)` onto the rotated axis
directions `d1`, `d2`, requiring both projections in `[0, width]` and
`[0, height]`. -/
def RectangleCollider.contains (c : RectangleCollider) (position : Point) : Bool :=
  let a := position.1
  let b := position.2
  if ¬(c.min_x < a ∧ a < c.max_x ∧ c.min_y < b ∧ b < c.max_y) then
    false
  else
    let p : Vector2 := ⟨position.1, position.2⟩
    let q : Vector2 := ⟨c.x, c.y⟩
    let d1 := Vector2.rotate ⟨1, 0⟩ (radians c.angle)
    let d2 := Vector2.rotate ⟨0, 1⟩ (radians c.angle)
    let s : Vector2 := ⟨p.x - q.x, q.y - p.y⟩
    let r1 := Vector2.dot s d1
    let r2 := Vector2.dot s d2
    if 0 ≤ r1 ∧ r1 ≤ c.width ∧ 0 ≤ r2 ∧ r2 ≤ c.height then true else false

/-- Embedding of `ArcCollider`: stores center, radius, and the start/stop angles as
computed by `__init__`. -/
structure ArcCollider where
  x : ℝ
  y : ℝ
  r : ℝ
  start_angle : ℝ
  stop_angle : ℝ

/-- Embedding of `ArcCollider.__init__`:
`start_angle = radians(min(max(start_angle, 0.0), 360.0))` and
`stop_angle = radians(min(max(self.start_angle, stop_angle), self.start_angle + 360.0))`.
Note the second line reads `self.start_angle`, which is already in
radians, and mixes it with `stop_angle`, which is still in degrees. -/
def ArcCollider.init (x y radius start_angle stop_angle : ℝ) : ArcCollider :=
  let sa := radians (min (max start_angle 0) 360)
  { x := x, y := y, r := radius
    start_angle := sa
    stop_angle := radians (min (max sa stop_angle) (sa + 360)) }

/-- Embedding of `ArcCollider.contains`: strict bounding-box pre-check, then the angle
of `s = (p.x - q.x, q.y - p.y)` against the unit x vector; `none` models
the `ZeroDivisionError` raised when `s` is the zero vector. -/
def ArcCollider.contains (c : ArcCollider) (position : Point) : Option Bool :=
  let x := position.1
  let y := position.2
  if ¬(c.x - c.r < x ∧ x < c.x + c.r ∧ c.y - c.r < y ∧ y < c.y + c.r) then
    some false
  else
    let s : Vector2 := ⟨x - c.x, c.y - y⟩
    let u : Vector2 := ⟨1, 0⟩
    match s.angle u with
    | none => none
    | some θ =>
      let ang := 2 * Real.pi - θ
      if (x - c.x) ^ 2 + (y - c.y) ^ 2 ≤ c.r ^ 2 ∧
          c.start_angle < ang ∧ ang < c.stop_angle then some true
      else some false

/-- Embedding of `PolygonCollider`: stores the point list and the bounding box
computed in `__init__`. -/
structure PolygonCollider where
  points : List Point
  min_x : ℝ
  min_y : ℝ
  max_x : ℝ
  max_y : ℝ

/-- Minimum of a list of reals in the style of Python `min(*xs)`
(defined as `0` on the empty list, on which Python raises instead;
all claims concern non-empty polygons). -/
def pyMin : List ℝ → ℝ
  | [] => 0
  | x :: xs => xs.foldl min x

/-- Maximum of a list of reals in the style of Python `max(*xs)`. -/
def pyMax : List ℝ → ℝ
  | [] => 0
  | x :: xs => xs.foldl max x

/-- Embedding of `PolygonCollider.__init__`: keeps the points and computes the min/max
of their coordinates. -/
def PolygonCollider.init (points : List Point) : PolygonCollider :=
  { points := points
    min_x := pyMin (points.map Prod.fst)
    min_y := pyMin (points.map Prod.snd)
    max_x := pyMax (points.map Prod.fst)
    max_y := pyMax (points.map Prod.snd) }

/-- The edge list traversed by `PolygonCollider.contains`:
`for i in range(-1, len(points) - 1)` pairs `points[i]` with
`points[i+1]`, i.e. the wrapping edge `(last, first)` followed by all
consecutive pairs. -/
def polygonEdges (points : List Point) : List (Point × Point) :=
  match points with
  | [] => []
  | p :: _ => ((points.getLastD p) :: points.dropLast).zip points

/-- One iteration of the ray-casting loop body: skip horizontal edges,
otherwise toggle the parity flag `c` when the query point's y straddles
the edge and the query point's x is strictly left of the edge's
x-intersection `ux` at that y. -/
def rayCastStep (position : Point) (c : Bool) (e : Point × Point) : Bool :=
  let x0 := e.1.1
  let y0 := e.1.2
  let x1 := e.2.1
  let y1 := e.2.2
  if y1 = y0 then c
  else
    let ux := (x1 - x0) * (position.2 - y0) / (y1 - y0) + x0
    if (¬((position.2 > y0) ↔ (position.2 > y1))) ∧ position.1 < ux then !c
    else c

/-- The even-odd ray-casting rule exactly as the loop in
`PolygonCollider.contains` (and as §4.2 of the spec describes it):
fold the loop body over all wrapping edges starting from parity
`false`. -/
def rayCast (points : List Point) (position : Point) : Bool :=
  (polygonEdges points).foldl (rayCastStep position) false

/-- Embedding of `PolygonCollider.contains`: strict bounding-box pre-check, then the
even-odd ray-casting loop. -/
def PolygonCollider.contains (c : PolygonCollider) (position : Point) : Bool :=
  if ¬(c.min_x < position.1 ∧ position.1 < c.max_x ∧
        c.min_y < position.2 ∧ position.2 < c.max_y) then
    false
  else rayCast c.points position

/-! ## The collider tree

The closed set of `Collider` variants: the five primitives and the
composites `ColliderUnion`, `ColliderIntersection`, `XorCollider`,
`SubstractCollider` (with its distinguished base) and
`InvertedCollider`.  Composites hold an ordered list of children. -/

/-- A collider tree node. -/
inductive Collider where
  | circle : CircleCollider → Collider
  | aabb : AABBCollider → Collider
  | rect : RectangleCollider → Collider
  | arc : ArcCollider → Collider
  | poly : PolygonCollider → Collider
  | union : List Collider → Collider
  | inter : List Collider → Collider
  | xor : List Collider → Collider
  | subtract : Collider → List Collider → Collider
  | invert : Collider → Collider

mutual

/-- Embedding of `contains` of the common `Collider` capability, dispatching on the
variant.  `none` models a propagating `ZeroDivisionError`. -/
def Collider.contains : Collider → Point → Option Bool
  | .circle c, p => some (c.contains p)
  | .aabb c, p => some (c.contains p)
  | .rect c, p => some (c.contains p)
  | .arc c, p => c.contains p
  | .poly c, p => some (c.contains p)
  | .union cs, p => Collider.unionLoop cs p
  | .inter cs, p => Collider.interLoop cs p
  | .xor cs, p => Collider.xorLoop false cs p
  | .subtract base cs, p =>
    match base.contains p with
    | none => none
    | some false => some false
    | some true => Collider.subLoop cs p
  | .invert c, p =>
    match c.contains p with
    | none => none
    | some b => some (!b)

/-- Embedding of `ColliderUnion.contains`: return `True` at the first child that
contains the point, `False` after the loop. -/
def Collider.unionLoop : List Collider → Point → Option Bool
  | [], _ => some false
  | c :: rest, p =>
    match c.contains p with
    | none => none
    | some true => some true
    | some false => Collider.unionLoop rest p

/-- Embedding of `ColliderIntersection.contains`: return `False` at the first child
that does not contain the point, `True` after the loop. -/
def Collider.interLoop : List Collider → Point → Option Bool
  | [], _ => some true
  | c :: rest, p =>
    match c.contains p with
    | none => none
    | some false => some false
    | some true => Collider.interLoop rest p

/-- Embedding of `XorCollider.contains`: toggle the accumulator per contained child. -/
def Collider.xorLoop : Bool → List Collider → Point → Option Bool
  | acc, [], _ => some acc
  | acc, c :: rest, p =>
    match c.contains p with
    | none => none
    | some b => Collider.xorLoop (if b then !acc else acc) rest p

/-- The subtrahend loop of `SubstractCollider.contains`: return `False`
at the first subtrahend child containing the point, `True` after. -/
def Collider.subLoop : List Collider → Point → Option Bool
  | [], _ => some true
  | c :: rest, p =>
    match c.contains p with
    | none => none
    | some true => some false
    | some false => Collider.subLoop rest p

end

mutual

/-- Holds (`true`) when no `ArcCollider` node occurs anywhere in the tree. -/
def Collider.arcFree : Collider → Bool
  | .circle _ => true
  | .aabb _ => true
  | .rect _ => true
  | .arc _ => false
  | .poly _ => true
  | .union cs => Collider.arcFreeList cs
  | .inter cs => Collider.arcFreeList cs
  | .xor cs => Collider.arcFreeList cs
  | .subtract base cs => base.arcFree && Collider.arcFreeList cs
  | .invert c => c.arcFree

/-- Conjunction of `arcFree` over a child list. -/
def Collider.arcFreeList : List Collider → Bool
  | [] => true
  | c :: rest => c.arcFree && Collider.arcFreeList rest

end

/-! ## State-passing semantics for the frame property

The Python `contains` methods read `self` but never assign to any of its
fields; the only mutation in a query is `Vector2.rotate` applied to
freshly created temporary vectors inside `RectangleCollider.contains`.
To state this, `containsS` threads each collider's state through the
query, statement by statement, returning the result together with the
collider's state after the call. -/

/-- State-passing `RectangleCollider.contains`: the local vectors `p`,
`q`, `d1`, `d2`, `s` are freshly constructed; `rotate` mutates only the
temporaries `d1`, `d2` (their post-mutation states are the rotated
vectors); no statement assigns a field of `self`, so the final state of
`self` is the input state. -/
def RectangleCollider.containsS (c : RectangleCollider) (position : Point) :
    Bool × RectangleCollider :=
  let a := position.1
  let b := position.2
  if ¬(c.min_x < a ∧ a < c.max_x ∧ c.min_y < b ∧ b < c.max_y) then
    (false, c)
  else
    let p : Vector2 := ⟨position.1, position.2⟩
    let q : Vector2 := ⟨c.x, c.y⟩
    let d1 := Vector2.rotate ⟨1, 0⟩ (radians c.angle)
    let d2 := Vector2.rotate ⟨0, 1⟩ (radians c.angle)
    let s : Vector2 := ⟨p.x - q.x, q.y - p.y⟩
    let r1 := Vector2.dot s d1
    let r2 := Vector2.dot s d2
    (if 0 ≤ r1 ∧ r1 ≤ c.width ∧ 0 ≤ r2 ∧ r2 ≤ c.height then true else false, c)

mutual

/-- State-passing `contains` over the tree: every child evaluated during
the query is threaded through, and each node returns its own state after
the call alongside the result. -/
def Collider.containsS : Collider → Point → Option Bool × Collider
  | .circle c, p => (some (c.contains p), .circle c)
  | .aabb c, p => (some (c.contains p), .aabb c)
  | .rect c, p =>
    match c.containsS p with
    | (r, c') => (some r, .rect c')
  | .arc c, p => (c.contains p, .arc c)
  | .poly c, p => (some (c.contains p), .poly c)
  | .union cs, p =>
    match Collider.unionLoopS cs p with
    | (r, cs') => (r, .union cs')
  | .inter cs, p =>
    match Collider.interLoopS cs p with
    | (r, cs') => (r, .inter cs')
  | .xor cs, p =>
    match Collider.xorLoopS false cs p with
    | (r, cs') => (r, .xor cs')
  | .subtract base cs, p =>
    match base.containsS p with
    | (none, base') => (none, .subtract base' cs)
    | (some false, base') => (some false, .subtract base' cs)
    | (some true, base') =>
      match Collider.subLoopS cs p with
      | (r, cs') => (r, .subtract base' cs')
  | .invert c, p =>
    match c.containsS p with
    | (none, c') => (none, .invert c')
    | (some b, c') => (some (!b), .invert c')

/-- State-passing union loop. -/
def Collider.unionLoopS : List Collider → Point → Option Bool × List Collider
  | [], _ => (some false, [])
  | c :: rest, p =>
    match c.containsS p with
    | (none, c') => (none, c' :: rest)
    | (some true, c') => (some true, c' :: rest)
    | (some false, c') =>
      match Collider.unionLoopS rest p with
      | (r, rest') => (r, c' :: rest')

/-- State-passing intersection loop. -/
def Collider.interLoopS : List Collider → Point → Option Bool × List Collider
  | [], _ => (some true, [])
  | c :: rest, p =>
    match c.containsS p with
    | (none, c') => (none, c' :: rest)
    | (some false, c') => (some false, c' :: rest)
    | (some true, c') =>
      match Collider.interLoopS rest p with
      | (r, rest') => (r, c' :: rest')

/-- State-passing xor loop. -/
def Collider.xorLoopS : Bool → List Collider → Point → Option Bool × List Collider
  | acc, [], _ => (some acc, [])
  | acc, c :: rest, p =>
    match c.containsS p with
    | (none, c') => (none, c' :: rest)
    | (some b, c') =>
      match Collider.xorLoopS (if b then !acc else acc) rest p with
      | (r, rest') => (r, c' :: rest')

/-- State-passing subtrahend loop. -/
def Collider.subLoopS : List Collider → Point → Option Bool × List Collider
  | [], _ => (some true, [])
  | c :: rest, p =>
    match c.containsS p with
    | (none, c') => (none, c' :: rest)
    | (some true, c') => (some false, c' :: rest)
    | (some false, c') =>
      match Collider.subLoopS rest p with
      | (r, rest') => (r, c' :: rest')

end

/-! ## Claim theorems -/

/-- C2 counterexample: `Circle(0,0,5).contains((5,0))` evaluates to
`false` although `(5-0)^2 + (0-0)^2 ≤ 5^2` holds, refuting the claim
that `contains` is equivalent to the inclusive squared-distance test
(the strict bounding-box pre-check rejects this boundary point). -/
theorem circle_boundary_point_rejected_cex :
    CircleCollider.contains ⟨0, 0, 5⟩ (5, 0) = false ∧
      ((5 : ℝ) - 0) ^ 2 + ((0 : ℝ) - 0) ^ 2 ≤ (5 : ℝ) ^ 2 := by
  constructor
  · norm_num [CircleCollider.contains]
  · norm_num

/-- C2 (amended): for every circle with radius `r ≥ 0`,
`contains((x,y))` returns `true` iff the point lies strictly inside the
open bounding box `(cx-r, cx+r) × (cy-r, cy+r)` and satisfies
`(x-cx)^2 + (y-cy)^2 ≤ r^2`; consequently `Circle(0,0,5)` gives
`contains((5,0)) = false` (bounding-box rejected boundary point),
`contains((5.01,0)) = false` and `contains((0,0)) = true`. -/
theorem circle_contains_characterization :
    (∀ cx cy r x y : ℝ, 0 ≤ r →
      (CircleCollider.contains ⟨cx, cy, r⟩ (x, y) = true ↔
        (cx - r < x ∧ x < cx + r ∧ cy - r < y ∧ y < cy + r) ∧
          (x - cx) ^ 2 + (y - cy) ^ 2 ≤ r ^ 2)) ∧
    CircleCollider.contains ⟨0, 0, 5⟩ (5.01, 0) = false ∧
    CircleCollider.contains ⟨0, 0, 5⟩ (0, 0) = true := by
  refine ⟨fun cx cy r x y _ => ?_, by norm_num [CircleCollider.contains],
    by norm_num [CircleCollider.contains]⟩
  simp only [CircleCollider.contains]
  by_cases h1 : cx - r < x ∧ x < cx + r ∧ cy - r < y ∧ y < cy + r
  · rw [if_neg (not_not_intro h1)]
    by_cases h2 : (x - cx) ^ 2 + (y - cy) ^ 2 ≤ r ^ 2
    · rw [if_pos h2]
      exact iff_of_true rfl ⟨h1, h2⟩
    · rw [if_neg h2]
      exact iff_of_false (by simp) fun hc => h2 hc.2
  · rw [if_pos h1]
    exact iff_of_false (by simp) fun hc => h1 hc.1

/-- C2 witness: the characterization applied to the circle
`Circle(0,0,5)` at the interior boundary point `(3,4)`. -/
theorem circle_contains_characterization_witness :
    (0 : ℝ) ≤ 5 ∧ CircleCollider.contains ⟨0, 0, 5⟩ (3, 4) = true :=
  ⟨by norm_num,
    (circle_contains_characterization.1 0 0 5 3 4 (by norm_num)).mpr
      (by norm_num)⟩

/-- C4 counterexample: the point `(5, 5/2)` is contained in
`AABB(0,0,10,5)` but not in `Rectangle(0,0,10,5,angle=0)`, refuting the
claimed behavioral identity of the two shapes. -/
theorem rectangle_angle_zero_ne_aabb_cex :
    (RectangleCollider.init 0 0 10 5 0).contains (5, 5 / 2) = false ∧
      AABBCollider.contains ⟨0, 0, 10, 5⟩ (5, 5 / 2) = true := by
  have hinit : RectangleCollider.init 0 0 10 5 0 = ⟨0, 0, 10, 5, 0, 0, 10, -5, 0⟩ := by
    simp only [RectangleCollider.init, radians]
    norm_num
  rw [hinit]
  constructor
  · norm_num [RectangleCollider.contains]
  · norm_num [AABBCollider.contains]

/-- C4 (amended): `Rectangle(0,0,10,5,angle=0)` contains exactly the
open box `(0,10) × (-5,0)` — the rectangle extends downward in `y` from
its origin and its boundary is excluded by the strict bounding-box
pre-check — whereas `AABB(0,0,10,5)` contains exactly the closed box
`[0,10] × [0,5]`; the two are not behaviorally identical. -/
theorem rectangle_angle_zero_characterization :
    (∀ a b : ℝ, (RectangleCollider.init 0 0 10 5 0).contains (a, b) = true ↔
      0 < a ∧ a < 10 ∧ -5 < b ∧ b < 0) ∧
    (∀ a b : ℝ, AABBCollider.contains ⟨0, 0, 10, 5⟩ (a, b) = true ↔
      0 ≤ a ∧ a ≤ 10 ∧ 0 ≤ b ∧ b ≤ 5) := by
  have hinit : RectangleCollider.init 0 0 10 5 0 = ⟨0, 0, 10, 5, 0, 0, 10, -5, 0⟩ := by
    simp only [RectangleCollider.init, radians]
    norm_num
  constructor
  · intro a b
    rw [hinit]
    simp only [RectangleCollider.contains, Vector2.rotate, Vector2.dot, radians]
    norm_num
    intro h1 h2 h3 h4
    exact ⟨h1.le, h2.le, h4.le, by linarith⟩
  · intro a b
    simp only [AABBCollider.contains]
    split_ifs with h
    · simpa using h
    · simpa using h

/-- C8: for every axis-aligned box, `contains((x,y))` returns `true` iff
`x0 ≤ x ≤ x0+w` and `y0 ≤ y ≤ y0+h`, inclusive on both ends; in
particular `AABB(0,0,10,10)` contains `(5,5)` and `(10,10)` but not
`(-0.01, 5)`. -/
theorem aabb_contains_characterization :
    (∀ x0 y0 w h x y : ℝ, 0 ≤ w → 0 ≤ h →
      (AABBCollider.contains ⟨x0, y0, w, h⟩ (x, y) = true ↔
        x0 ≤ x ∧ x ≤ x0 + w ∧ y0 ≤ y ∧ y ≤ y0 + h)) ∧
    AABBCollider.contains ⟨0, 0, 10, 10⟩ (5, 5) = true ∧
    AABBCollider.contains ⟨0, 0, 10, 10⟩ (10, 10) = true ∧
    AABBCollider.contains ⟨0, 0, 10, 10⟩ (-0.01, 5) = false := by
  refine ⟨fun x0 y0 w h x y _ _ => ?_, by norm_num [AABBCollider.contains],
    by norm_num [AABBCollider.contains], by norm_num [AABBCollider.contains]⟩
  simp only [AABBCollider.contains]
  split_ifs with hc
  · simpa using hc
  · simpa using hc

/-- C8 witness: the characterization applied to `AABB(0,0,10,10)` at
`(3,4)`. -/
theorem aabb_contains_characterization_witness :
    (0 : ℝ) ≤ 10 ∧ AABBCollider.contains ⟨0, 0, 10, 10⟩ (3, 4) = true :=
  ⟨by norm_num,
    (aabb_contains_characterization.1 0 0 10 10 3 4 (by norm_num)
      (by norm_num)).mpr (by norm_num)⟩

/-- C10: a `ColliderIntersection` with zero children contains every
point (the loop body never runs and the method returns `True`), while a
`ColliderUnion` with zero children contains no point. -/
theorem empty_intersection_true_empty_union_false :
    ∀ p : Point,
      Collider.contains (.inter []) p = some true ∧
        Collider.contains (.union []) p = some false :=
  fun _ => ⟨rfl, rfl⟩

/-- Evaluation of `ArcCollider.__init__(0, 0, 10, 0, 90)`: stored start
angle `0` and stored stop angle `π/2` radians. -/
theorem arc_init_0_90_eval :
    ArcCollider.init 0 0 10 0 90 = ⟨0, 0, 10, 0, Real.pi / 2⟩ := by
  simp only [ArcCollider.init, radians]
  norm_num
  ring

/-- C5: the constructor mixes units — `self.start_angle` is already in
radians when it is clamped against `stop_angle`, which is still in
degrees, and `math.radians` is applied a second time.  For
`ArcCollider(0, 0, 1, start_angle=90, stop_angle=45)` the stored stop
angle (`π/4`, from degrees `45`) is strictly below the stored start
angle (`π/2`), contradicting the specified invariant
`stop ∈ [start, start + 360)`. -/
theorem arc_init_stop_lt_start_at_90_45 :
    (ArcCollider.init 0 0 1 90 45).stop_angle
      < (ArcCollider.init 0 0 1 90 45).start_angle := by
  have hpi : (3.141592 : ℝ) < Real.pi := Real.pi_gt_d6
  have hpi2 : Real.pi < 3.1416 := by
    have := Real.pi_lt_d6
    linarith
  simp only [ArcCollider.init, radians]
  have h1 : min (max (90 : ℝ) 0) 360 = 90 := by norm_num
  rw [h1]
  have h2 : max (90 * Real.pi / 180) 45 = 45 := by
    rw [max_eq_right]
    nlinarith
  have h3 : min (45 : ℝ) (90 * Real.pi / 180 + 360) = 45 := by
    rw [min_eq_left]
    nlinarith
  rw [h2, h3]
  nlinarith

/-- Evaluation of `Vector2((0)-(0), (0)-(-5)).angle(Vector2(1, 0))`:
the vector `(0, 5)` makes the signed angle `3π/2` with the unit x
vector under the source's sign convention. -/
theorem angle_of_0_5_with_unit_x :
    Vector2.angle ⟨(0 : ℝ) - 0, (0 : ℝ) - -5⟩ ⟨1, 0⟩ = some (3 * Real.pi / 2) := by
  have hm : Vector2.magnitude ⟨(0 : ℝ) - 0, (0 : ℝ) - -5⟩ = 5 := by
    simp only [Vector2.magnitude]
    norm_num
    rw [show (25 : ℝ) = 5 ^ 2 by norm_num, Real.sqrt_sq (by norm_num)]
  have hu : Vector2.magnitude ⟨1, 0⟩ = 1 := by
    simp only [Vector2.magnitude]
    rw [show (1 : ℝ) * 1 + 0 * 0 = 1 ^ 2 by norm_num, Real.sqrt_sq (by norm_num)]
  simp only [Vector2.angle, hm, hu, Vector2.dot, Vector2.cross_product]
  norm_num
  have h1 : ¬(Real.pi / 2 < 0) := not_lt.mpr (by positivity)
  rw [if_neg h1, if_pos (by nlinarith [Real.pi_pos])]
  ring

/-- C6 counterexample: for `Arc(0, 0, 10, start=0, stop=90)` (stored
angles `0` and `π/2`) the point `(0, -5)` is strictly within the radius
and its angular position `2π - angle_between = π/2` lies in the closed
interval `[start_angle, stop_angle]`, yet `contains` returns `false`:
the membership test is strict at both endpoints. -/
theorem arc_closed_endpoint_excluded_cex :
    (ArcCollider.init 0 0 10 0 90).contains (0, -5) = some false ∧
    ((0 : ℝ) - 0) ^ 2 + ((-5 : ℝ) - 0) ^ 2 ≤ (10 : ℝ) ^ 2 ∧
    Vector2.angle ⟨(0 : ℝ) - 0, (0 : ℝ) - -5⟩ ⟨1, 0⟩ = some (3 * Real.pi / 2) ∧
    (ArcCollider.init 0 0 10 0 90).start_angle ≤ 2 * Real.pi - 3 * Real.pi / 2 ∧
    2 * Real.pi - 3 * Real.pi / 2 ≤ (ArcCollider.init 0 0 10 0 90).stop_angle := by
  refine ⟨?_, by norm_num, angle_of_0_5_with_unit_x, ?_, ?_⟩
  · rw [arc_init_0_90_eval]
    simp only [ArcCollider.contains]
    rw [if_neg (by norm_num)]
    simp only [angle_of_0_5_with_unit_x]
    rw [if_neg (by intro h; nlinarith [h.2.2])]
  · rw [arc_init_0_90_eval]
    nlinarith [Real.pi_pos]
  · rw [arc_init_0_90_eval]
    nlinarith [Real.pi_pos]

/-- C6 (amended): for every arc with radius `r > 0` and stored angles
`start_angle ≤ stop_angle`, and every point distinct from the center
(so the angle computation returns a value `θ`), `contains` returns
`true` iff the point lies strictly inside the open bounding box
`(x-r, x+r) × (y-r, y+r)` AND within the radius
(`(px-x)^2 + (py-y)^2 ≤ r^2`) AND the angular position `2π - θ` lies
strictly inside the OPEN interval `(start_angle, stop_angle)` — both
endpoints excluded, unlike the closed interval the claim states. -/
theorem arc_contains_characterization (a : ArcCollider) (p : Point)
    (hr : 0 < a.r) (hss : a.start_angle ≤ a.stop_angle)
    (hp : p ≠ (a.x, a.y)) (θ : ℝ)
    (hθ : Vector2.angle ⟨p.1 - a.x, a.y - p.2⟩ ⟨1, 0⟩ = some θ) :
    a.contains p = some true ↔
      (a.x - a.r < p.1 ∧ p.1 < a.x + a.r ∧ a.y - a.r < p.2 ∧ p.2 < a.y + a.r) ∧
        (p.1 - a.x) ^ 2 + (p.2 - a.y) ^ 2 ≤ a.r ^ 2 ∧
        a.start_angle < 2 * Real.pi - θ ∧ 2 * Real.pi - θ < a.stop_angle := by
  simp only [ArcCollider.contains]
  by_cases h1 : a.x - a.r < p.1 ∧ p.1 < a.x + a.r ∧ a.y - a.r < p.2 ∧ p.2 < a.y + a.r
  · rw [if_neg (not_not_intro h1)]
    simp only [hθ]
    by_cases h2 : (p.1 - a.x) ^ 2 + (p.2 - a.y) ^ 2 ≤ a.r ^ 2 ∧
        a.start_angle < 2 * Real.pi - θ ∧ 2 * Real.pi - θ < a.stop_angle
    · rw [if_pos h2]
      exact iff_of_true rfl ⟨h1, h2⟩
    · rw [if_neg h2]
      exact iff_of_false (by simp) fun hc => h2 hc.2
  · rw [if_pos h1]
    exact iff_of_false (by simp) fun hc => h1 hc.1

/-- C6 witness: the characterization applied to the arc with stored
angles `0` and `π/2`, radius `10`, at the point `(5, 0)` whose angle
value is `θ = 0`. -/
theorem arc_contains_characterization_witness :
    (0 : ℝ) < 10 ∧ (0 : ℝ) ≤ Real.pi / 2 ∧
    ((5 : ℝ), (0 : ℝ)) ≠ ((0 : ℝ), (0 : ℝ)) ∧
    Vector2.angle ⟨(5 : ℝ) - 0, (0 : ℝ) - 0⟩ ⟨1, 0⟩ = some 0 ∧
    ((ArcCollider.mk 0 0 10 0 (Real.pi / 2)).contains (5, 0) = some true ↔
      ((0 : ℝ) - 10 < 5 ∧ (5 : ℝ) < 0 + 10 ∧ (0 : ℝ) - 10 < 0 ∧ (0 : ℝ) < 0 + 10) ∧
        ((5 : ℝ) - 0) ^ 2 + ((0 : ℝ) - 0) ^ 2 ≤ (10 : ℝ) ^ 2 ∧
        0 < 2 * Real.pi - 0 ∧ 2 * Real.pi - 0 < Real.pi / 2) := by
  have hang : Vector2.angle ⟨(5 : ℝ) - 0, (0 : ℝ) - 0⟩ ⟨1, 0⟩ = some 0 := by
    have hm : Vector2.magnitude ⟨(5 : ℝ) - 0, (0 : ℝ) - 0⟩ = 5 := by
      simp only [Vector2.magnitude]
      norm_num
      rw [show (25 : ℝ) = 5 ^ 2 by norm_num, Real.sqrt_sq (by norm_num)]
    have hu : Vector2.magnitude ⟨1, 0⟩ = 1 := by
      simp only [Vector2.magnitude]
      rw [show (1 : ℝ) * 1 + 0 * 0 = 1 ^ 2 by norm_num, Real.sqrt_sq (by norm_num)]
    simp only [Vector2.angle, hm, hu, Vector2.dot, Vector2.cross_product]
    norm_num
  refine ⟨by norm_num, by positivity, by norm_num, hang, ?_⟩
  exact arc_contains_characterization ⟨0, 0, 10, 0, Real.pi / 2⟩ (5, 0)
    (by norm_num) (by positivity) (by norm_num) 0 hang

/-- C3 counterexample: for the square polygon
`(0,0), (10,0), (10,10), (0,10)` and the point `(0, 5)` on its
bounding-box boundary, the even-odd ray-casting rule yields `true`
(the ray toggles parity once, at the right edge), yet `contains`
returns `false`: the strict bounding-box pre-check overrides the rule
on the boundary. -/
theorem polygon_bbox_boundary_cex :
    (PolygonCollider.init
        [((0 : ℝ), (0 : ℝ)), (10, 0), (10, 10), (0, 10)]).contains (0, 5) = false ∧
      rayCast [((0 : ℝ), (0 : ℝ)), (10, 0), (10, 10), (0, 10)] (0, 5) = true := by
  constructor
  · norm_num [PolygonCollider.contains, PolygonCollider.init, pyMin, pyMax]
  · norm_num [rayCast, polygonEdges, rayCastStep]

/-- C3 (amended): for every polygon with at least 3 vertices,
`contains(p)` returns `true` iff the point lies strictly inside the
polygon's axis-aligned bounding box AND the even-odd ray-casting rule
(iterate consecutive vertex pairs wrapping from last to first, skip
horizontal edges, toggle parity when the point's y straddles the edge
and its x is strictly left of the edge's x-intersection) yields `true`;
on and outside the bounding-box boundary, `contains` returns `false`
regardless of the rule's parity. -/
theorem polygon_contains_characterization :
    ∀ (pts : List Point) (p : Point), 3 ≤ pts.length →
      ((PolygonCollider.init pts).contains p = true ↔
        (pyMin (pts.map Prod.fst) < p.1 ∧ p.1 < pyMax (pts.map Prod.fst) ∧
            pyMin (pts.map Prod.snd) < p.2 ∧ p.2 < pyMax (pts.map Prod.snd)) ∧
          rayCast pts p = true) := by
  intro pts p _
  simp only [PolygonCollider.contains, PolygonCollider.init]
  by_cases h1 : pyMin (pts.map Prod.fst) < p.1 ∧ p.1 < pyMax (pts.map Prod.fst) ∧
      pyMin (pts.map Prod.snd) < p.2 ∧ p.2 < pyMax (pts.map Prod.snd)
  · rw [if_neg (not_not_intro h1)]
    exact ⟨fun h => ⟨h1, h⟩, fun h => h.2⟩
  · rw [if_pos h1]
    exact iff_of_false (by simp) fun hc => h1 hc.1

/-- C3 witness: the characterization applied to the square polygon at
the interior point `(5, 5)`. -/
theorem polygon_contains_characterization_witness :
    3 ≤ ([((0 : ℝ), (0 : ℝ)), (10, 0), (10, 10), (0, 10)] : List Point).length ∧
      (PolygonCollider.init
        [((0 : ℝ), (0 : ℝ)), (10, 0), (10, 10), (0, 10)]).contains (5, 5) = true :=
  ⟨by norm_num,
    (polygon_contains_characterization _ _ (by norm_num)).mpr
      ⟨by norm_num [pyMin, pyMax],
        by norm_num [rayCast, polygonEdges, rayCastStep]⟩⟩

/-- Evaluation helper: querying the arc built by
`ArcCollider(0, 0, 1, 0, 90)` at its own center `(0, 0)` raises: the
bounding-box pre-check passes and `Vector2.angle` divides by the zero
magnitude of `(0, 0)`. -/
theorem arc_unit_center_contains_none :
    (ArcCollider.init 0 0 1 0 90).contains (0, 0) = none := by
  have hang : Vector2.angle ⟨(0 : ℝ) - 0, (0 : ℝ) - 0⟩ ⟨1, 0⟩ = none := by
    simp [Vector2.angle, Vector2.magnitude]
  have hinit : ArcCollider.init 0 0 1 0 90 =
      ⟨0, 0, 1, 0, Real.pi / 2⟩ := by
    simp only [ArcCollider.init, radians]
    norm_num
    ring
  rw [hinit]
  simp only [ArcCollider.contains]
  rw [if_neg (by norm_num)]
  simp only [hang]

mutual

/-- Totality of `contains` on arc-free trees. -/
theorem contains_isSome_of_arcFree : ∀ (c : Collider), c.arcFree = true →
    ∀ p : Point, (Collider.contains c p).isSome = true
  | .circle _, _, _ => rfl
  | .aabb _, _, _ => rfl
  | .rect _, _, _ => rfl
  | .arc _, h, _ => by simp [Collider.arcFree] at h
  | .poly _, _, _ => rfl
  | .union cs, h, p =>
    unionLoop_isSome cs (by simpa [Collider.arcFree] using h) p
  | .inter cs, h, p =>
    interLoop_isSome cs (by simpa [Collider.arcFree] using h) p
  | .xor cs, h, p =>
    xorLoop_isSome false cs (by simpa [Collider.arcFree] using h) p
  | .subtract base cs, h, p => by
    rw [Collider.arcFree, Bool.and_eq_true] at h
    have h1 := contains_isSome_of_arcFree base h.1 p
    rw [Collider.contains]
    cases hc : Collider.contains base p with
    | none => rw [hc] at h1; simp at h1
    | some b =>
      cases b with
      | false => rfl
      | true => exact subLoop_isSome cs h.2 p
  | .invert c, h, p => by
    have h1 := contains_isSome_of_arcFree c (by simpa [Collider.arcFree] using h) p
    rw [Collider.contains]
    cases hc : Collider.contains c p with
    | none => rw [hc] at h1; simp at h1
    | some b => rfl

/-- Totality of the union loop on arc-free children. -/
theorem unionLoop_isSome : ∀ (cs : List Collider), Collider.arcFreeList cs = true →
    ∀ p : Point, (Collider.unionLoop cs p).isSome = true
  | [], _, _ => rfl
  | c :: rest, h, p => by
    rw [Collider.arcFreeList, Bool.and_eq_true] at h
    have h1 := contains_isSome_of_arcFree c h.1 p
    rw [Collider.unionLoop]
    cases hc : Collider.contains c p with
    | none => rw [hc] at h1; simp at h1
    | some b =>
      cases b with
      | true => rfl
      | false => exact unionLoop_isSome rest h.2 p

/-- Totality of the intersection loop on arc-free children. -/
theorem interLoop_isSome : ∀ (cs : List Collider), Collider.arcFreeList cs = true →
    ∀ p : Point, (Collider.interLoop cs p).isSome = true
  | [], _, _ => rfl
  | c :: rest, h, p => by
    rw [Collider.arcFreeList, Bool.and_eq_true] at h
    have h1 := contains_isSome_of_arcFree c h.1 p
    rw [Collider.interLoop]
    cases hc : Collider.contains c p with
    | none => rw [hc] at h1; simp at h1
    | some b =>
      cases b with
      | false => rfl
      | true => exact interLoop_isSome rest h.2 p

/-- Totality of the xor loop on arc-free children. -/
theorem xorLoop_isSome : ∀ (acc : Bool) (cs : List Collider),
    Collider.arcFreeList cs = true →
    ∀ p : Point, (Collider.xorLoop acc cs p).isSome = true
  | _, [], _, _ => rfl
  | acc, c :: rest, h, p => by
    rw [Collider.arcFreeList, Bool.and_eq_true] at h
    have h1 := contains_isSome_of_arcFree c h.1 p
    rw [Collider.xorLoop]
    cases hc : Collider.contains c p with
    | none => rw [hc] at h1; simp at h1
    | some b => exact xorLoop_isSome (if b then !acc else acc) rest h.2 p

/-- Totality of the subtrahend loop on arc-free children. -/
theorem subLoop_isSome : ∀ (cs : List Collider), Collider.arcFreeList cs = true →
    ∀ p : Point, (Collider.subLoop cs p).isSome = true
  | [], _, _ => rfl
  | c :: rest, h, p => by
    rw [Collider.arcFreeList, Bool.and_eq_true] at h
    have h1 := contains_isSome_of_arcFree c h.1 p
    rw [Collider.subLoop]
    cases hc : Collider.contains c p with
    | none => rw [hc] at h1; simp at h1
    | some b =>
      cases b with
      | true => rfl
      | false => exact subLoop_isSome rest h.2 p

end

/-- C1 counterexample: `ArcCollider(0, 0, 1, 0, 90)` (radius `1 > 0`)
queried at its own center `(0, 0)` does not return a boolean: the point
passes the strict bounding-box pre-check and the angle computation
divides by the magnitude of the zero vector, raising
`ZeroDivisionError` (modelled as `none`). -/
theorem arc_contains_at_center_raises_cex :
    Collider.contains (.arc (ArcCollider.init 0 0 1 0 90)) (0, 0) = none := by
  rw [Collider.contains]
  exact arc_unit_center_contains_none

/-- C1 (amended): `contains` terminates normally and returns a boolean
for every point on every collider tree that contains no `ArcCollider`
node; but an `ArcCollider` with radius `r > 0` queried exactly at its
center `(x, y)` raises `ZeroDivisionError` from the angle computation
instead of returning a boolean. -/
theorem arc_free_total_and_arc_center_raises :
    (∀ c : Collider, c.arcFree = true →
      ∀ p : Point, (Collider.contains c p).isSome = true) ∧
    (∀ x y r s t : ℝ, 0 < r →
      Collider.contains (.arc (ArcCollider.init x y r s t)) (x, y) = none) := by
  refine ⟨contains_isSome_of_arcFree, fun x y r s t hr => ?_⟩
  have hang : Vector2.angle ⟨x - x, y - y⟩ ⟨1, 0⟩ = none := by
    simp [Vector2.angle, Vector2.magnitude]
  rw [Collider.contains]
  simp only [ArcCollider.contains, ArcCollider.init]
  rw [if_neg (not_not_intro ⟨by linarith, by linarith, by linarith, by linarith⟩)]
  simp only [hang]

/-- C1 witness: an arc-free union of a circle and a box is total at
`(2, 2)`, and the arc `ArcCollider(1, 1, 2, 0, 90)` with radius `2 > 0`
raises at its center `(1, 1)`. -/
theorem arc_free_total_witness :
    (Collider.arcFree (.union [.circle ⟨0, 0, 5⟩, .aabb ⟨0, 0, 1, 1⟩]) = true ∧
      (Collider.contains (.union [.circle ⟨0, 0, 5⟩, .aabb ⟨0, 0, 1, 1⟩])
        ((2 : ℝ), (2 : ℝ))).isSome = true) ∧
    ((0 : ℝ) < 2 ∧
      Collider.contains (.arc (ArcCollider.init 1 1 2 0 90)) (1, 1) = none) := by
  have hfree : Collider.arcFree (.union [.circle ⟨0, 0, 5⟩, .aabb ⟨0, 0, 1, 1⟩]) = true := rfl
  exact ⟨⟨hfree, arc_free_total_and_arc_center_raises.1 _ hfree _⟩,
    ⟨by norm_num, arc_free_total_and_arc_center_raises.2 1 1 2 0 90 (by norm_num)⟩⟩

/-- The union loop returns `some true` exactly when some child returns
`some true`, provided every child returns a value. -/
theorem unionLoop_some_true_iff : ∀ (cs : List Collider) (p : Point),
    (∀ c ∈ cs, (Collider.contains c p).isSome = true) →
    (Collider.unionLoop cs p = some true ↔
      ∃ c ∈ cs, Collider.contains c p = some true)
  | [], p, _ => by simp [Collider.unionLoop]
  | c :: rest, p, h => by
    have h1 := h c (List.mem_cons_self c rest)
    have hrest := unionLoop_some_true_iff rest p
      (fun d hd => h d (List.mem_cons_of_mem c hd))
    rw [Collider.unionLoop]
    cases hc : Collider.contains c p with
    | none => rw [hc] at h1; simp at h1
    | some b =>
      cases b with
      | true => simp [hc]
      | false => simpa [hc] using hrest

/-- C7 counterexample: in
`Union(Arc(0,0,1,0,90), Circle(0,0,1))` queried at `(0, 0)`, the second
child's `contains` returns `true`, yet the union does not return `true`:
the first child raises `ZeroDivisionError` (modelled as `none`) and the
exception propagates out of the union. -/
theorem union_exception_masks_child_cex :
    Collider.contains
        (.union [.arc (ArcCollider.init 0 0 1 0 90), .circle ⟨0, 0, 1⟩])
        (0, 0) = none ∧
      Collider.contains (.circle ⟨0, 0, 1⟩) ((0 : ℝ), (0 : ℝ)) = some true := by
  constructor
  · rw [Collider.contains, Collider.unionLoop, Collider.contains,
      arc_unit_center_contains_none]
  · rw [Collider.contains]
    norm_num [CircleCollider.contains]

/-- C7 (amended): provided every child's `contains` returns a boolean
at `p` (no child raises), `ColliderUnion(children).contains(p)` returns
`true` iff at least one child's `contains(p)` returns `true`; and for
two children returning `a` and `b`, `Union(A,B).contains(p)` returns
`a || b`. -/
theorem union_contains_characterization :
    (∀ (cs : List Collider) (p : Point),
      (∀ c ∈ cs, (Collider.contains c p).isSome = true) →
      (Collider.contains (.union cs) p = some true ↔
        ∃ c ∈ cs, Collider.contains c p = some true)) ∧
    (∀ (A B : Collider) (p : Point) (a b : Bool),
      Collider.contains A p = some a → Collider.contains B p = some b →
      Collider.contains (.union [A, B]) p = some (a || b)) := by
  constructor
  · intro cs p h
    rw [Collider.contains]
    exact unionLoop_some_true_iff cs p h
  · intro A B p a b ha hb
    rw [Collider.contains, Collider.unionLoop, ha]
    cases a with
    | true => rfl
    | false =>
      rw [Collider.unionLoop, hb]
      cases b with
      | true => rfl
      | false => rfl

/-- C7 witness: the two-child form applied to a circle and a box both
containing the origin. -/
theorem union_contains_characterization_witness :
    Collider.contains (.circle ⟨0, 0, 1⟩) ((0 : ℝ), (0 : ℝ)) = some true ∧
    Collider.contains (.aabb ⟨0, 0, 1, 1⟩) ((0 : ℝ), (0 : ℝ)) = some true ∧
    Collider.contains (.union [.circle ⟨0, 0, 1⟩, .aabb ⟨0, 0, 1, 1⟩])
      ((0 : ℝ), (0 : ℝ)) = some (true || true) := by
  have h1 : Collider.contains (.circle ⟨0, 0, 1⟩) ((0 : ℝ), (0 : ℝ)) = some true := by
    rw [Collider.contains]
    norm_num [CircleCollider.contains]
  have h2 : Collider.contains (.aabb ⟨0, 0, 1, 1⟩) ((0 : ℝ), (0 : ℝ)) = some true := by
    rw [Collider.contains]
    norm_num [AABBCollider.contains]
  exact ⟨h1, h2, union_contains_characterization.2 _ _ _ _ _ h1 h2⟩

/-- The state returned by the state-passing rectangle query equals the
input state: no statement of `RectangleCollider.contains` assigns a
field of `self`. -/
theorem rect_containsS_eq (c : RectangleCollider) (p : Point) :
    c.containsS p = (c.contains p, c) := by
  rw [RectangleCollider.containsS, RectangleCollider.contains]
  split_ifs <;> rfl

mutual

/-- The state-passing tree query returns the result of `contains`
together with the unchanged collider. -/
theorem containsS_eq : ∀ (c : Collider) (p : Point),
    Collider.containsS c p = (Collider.contains c p, c)
  | .circle _, _ => rfl
  | .aabb _, _ => rfl
  | .rect c, p => by
    rw [Collider.containsS, Collider.contains, rect_containsS_eq c p]
  | .arc _, _ => rfl
  | .poly _, _ => rfl
  | .union cs, p => by
    rw [Collider.containsS, Collider.contains, unionLoopS_eq cs p]
  | .inter cs, p => by
    rw [Collider.containsS, Collider.contains, interLoopS_eq cs p]
  | .xor cs, p => by
    rw [Collider.containsS, Collider.contains, xorLoopS_eq false cs p]
  | .subtract base cs, p => by
    rw [Collider.containsS, Collider.contains, containsS_eq base p]
    cases hb : Collider.contains base p with
    | none => rfl
    | some b =>
      cases b with
      | false => rfl
      | true => rw [subLoopS_eq cs p]
  | .invert c, p => by
    rw [Collider.containsS, Collider.contains, containsS_eq c p]
    cases hc : Collider.contains c p with
    | none => rfl
    | some b => rfl

/-- State-passing union loop leaves the children unchanged. -/
theorem unionLoopS_eq : ∀ (cs : List Collider) (p : Point),
    Collider.unionLoopS cs p = (Collider.unionLoop cs p, cs)
  | [], _ => rfl
  | c :: rest, p => by
    rw [Collider.unionLoopS, Collider.unionLoop, containsS_eq c p]
    cases hc : Collider.contains c p with
    | none => rfl
    | some b =>
      cases b with
      | true => rfl
      | false => rw [unionLoopS_eq rest p]

/-- State-passing intersection loop leaves the children unchanged. -/
theorem interLoopS_eq : ∀ (cs : List Collider) (p : Point),
    Collider.interLoopS cs p = (Collider.interLoop cs p, cs)
  | [], _ => rfl
  | c :: rest, p => by
    rw [Collider.interLoopS, Collider.interLoop, containsS_eq c p]
    cases hc : Collider.contains c p with
    | none => rfl
    | some b =>
      cases b with
      | false => rfl
      | true => rw [interLoopS_eq rest p]

/-- State-passing xor loop leaves the children unchanged. -/
theorem xorLoopS_eq : ∀ (acc : Bool) (cs : List Collider) (p : Point),
    Collider.xorLoopS acc cs p = (Collider.xorLoop acc cs p, cs)
  | _, [], _ => rfl
  | acc, c :: rest, p => by
    rw [Collider.xorLoopS, Collider.xorLoop, containsS_eq c p]
    cases hc : Collider.contains c p with
    | none => rfl
    | some b => simp only [xorLoopS_eq (if b then !acc else acc) rest p]

/-- State-passing subtrahend loop leaves the children unchanged. -/
theorem subLoopS_eq : ∀ (cs : List Collider) (p : Point),
    Collider.subLoopS cs p = (Collider.subLoop cs p, cs)
  | [], _ => rfl
  | c :: rest, p => by
    rw [Collider.subLoopS, Collider.subLoop, containsS_eq c p]
    cases hc : Collider.contains c p with
    | none => rfl
    | some b =>
      cases b with
      | true => rfl
      | false => rw [subLoopS_eq rest p]

end

/-- C9: evaluating `contains` leaves every collider in the tree
unchanged — the state-passing semantics returns exactly the `contains`
result paired with the input tree; in particular
`RectangleCollider.contains` leaves all rectangle fields (including the
cached bounding box) unchanged even though it uses the mutating
`Vector2.rotate` on freshly created vectors. -/
theorem contains_state_passing_pure :
    (∀ (c : Collider) (p : Point),
      Collider.containsS c p = (Collider.contains c p, c)) ∧
    (∀ (r : RectangleCollider) (p : Point),
      r.containsS p = (r.contains p, r)) :=
  ⟨containsS_eq, rect_containsS_eq⟩

end SatisfactoryPlanner
